import Mathlib

/-!
Shallow embedding of the scrape-cycle engine of `zhucan/ceph_exporter`:

* the bucket-usage fan-out sub-collector of the `ceph` package
  (`src/unnamed/part_000` declares the JSON record shapes and the two
  radosgw-admin command helpers; `src/unnamed/part_001` declares
  `BucketUsageCollector` with its `collect`, `Collect` and `Describe`);
* the exporter orchestration of `exporter.go` (`CephExporter` with
  `getCollectors`, `cephVersionCmd`, `setCephVersion`, `Describe`,
  `Collect`, and the `emfileAwareTcpListener`).

Go `error` results become `Except`/`Option` values, raw `[]byte` payloads
become an abstract `Bytes` value that either decodes to the expected JSON
shape or does not, and external effects (shelling out to radosgw-admin,
the cluster connection's MonCommand) become function parameters.  The
concurrent fan-out of `collect` is sequentialized in enumeration order;
the cycle-lock discipline of `CephExporter.Collect` is modelled separately
as a two-thread step relation at the end of the definitions section.
-/

/-- Go `error` values relevant to the embedded code, as tagged messages. -/
inductive CephError where
  | cmdError (msg : String)
  | unmarshalError (msg : String)
  | versionParseError (msg : String)
deriving DecidableEq, Repr

/-- One element of the `bucket stats` JSON array: the fields of the
anonymous struct inside `BucketStats` (part_000 lines 5-19).  The empty
`usage` and `bucket_quota` sub-objects carry no data and are omitted. -/
structure Bucket where
  bucket : String
  numShards : Int
  id : String
  owner : String
  mtime : String
  creationTime : String
deriving DecidableEq, Repr

/-- One per-category record inside a usage summary (part_000 lines 24-30). -/
structure UsageCategory where
  category : String
  bytesSent : Int
  bytesReceived : Int
  ops : Int
  successfulOps : Int
deriving DecidableEq, Repr

/-- One per-owner summary of `BucketUsage` (part_000 lines 22-31). -/
structure UsageSummary where
  user : String
  categories : List UsageCategory
deriving DecidableEq, Repr

/-- The `usage show` JSON payload shape (part_000 lines 21-32). -/
structure BucketUsage where
  summary : List UsageSummary
deriving DecidableEq, Repr

/-- Modelled from the spec: the parsed cluster version (`version.Version`
of the repository's `version` package, which is not under src/) — spec §3:
"major/minor/patch, raw string". -/
structure Version where
  major : Nat
  minor : Nat
  patch : Nat
  raw : String
deriving DecidableEq, Repr

/-- Abstract model of a raw `[]byte` JSON payload: a byte string either
decodes as one of the concrete JSON shapes the embedded code expects, or
it is malformed.  `versionJson` is the mon `version` reply containing a
version string field. -/
inductive Bytes where
  | bucketsJson (buckets : List Bucket)
  | usageJson (usage : BucketUsage)
  | versionJson (version : String)
  | malformed
deriving DecidableEq, Repr

/-- Model of `json.Unmarshal(buf, &stats.Buckets)` (part_001 line 68). -/
def jsonUnmarshalBuckets : Bytes → Except CephError (List Bucket)
  | .bucketsJson buckets => .ok buckets
  | _ => .error (.unmarshalError "cannot unmarshal into BucketStats.Buckets")

/-- Model of `json.Unmarshal(buf, usage)` (part_001 line 87).  The input is
an `Option Bytes` because the goroutine reaches this call even after a
failed `showBucketUsage`, in which case `buf` is nil and Go's
`json.Unmarshal` fails on empty input. -/
def jsonUnmarshalUsage : Option Bytes → Except CephError BucketUsage
  | some (.usageJson usage) => .ok usage
  | some _ => .error (.unmarshalError "cannot unmarshal into BucketUsage")
  | none => .error (.unmarshalError "unexpected end of JSON input")

/-- Model of a `prometheus.Desc`: fully-qualified name, help string, the
declared variable label names in order, and the constant labels. -/
structure Desc where
  fqName : String
  help : String
  variableLabels : List String
  constLabels : List (String × String)
deriving DecidableEq, Repr

/-- Model of one metric sample written to the output channel by
`prometheus.MustNewConstMetric(desc, GaugeValue, value, labelValues...)`.
The int64 counters that feed `float64(...)` are kept as `Int`. -/
structure Metric where
  desc : Desc
  value : Int
  labelValues : List String
deriving DecidableEq, Repr

/-- A log record (severity and message) emitted through the logger. -/
structure LogEvent where
  level : String
  msg : String
deriving DecidableEq, Repr

/-- The fields of the `ceph` package's `Exporter` that
`NewBucketUsageCollector` reads (part_001 lines 44-50). -/
structure Exporter where
  Cluster : String
  Config : String
  User : String
  Version : Option Version
deriving Repr

/-- The metric namespace constant `cephNamespace` of the `ceph` package
(used at part_001 lines 54-57; its declaration is not under src/ — the
value is immaterial to every claim). -/
def cephNamespace : String := "ceph"

/-- `BucketUsageCollector` (part_001 lines 13-34).  The two function
fields mirror the Go fields `listBucketStats` and `showBucketUsage`; the
logger field is dropped (logging is modelled in the operation results). -/
structure BucketUsageCollector where
  config : String
  user : String
  version : Option Version
  BytesSent : Desc
  BytesReceived : Desc
  Ops : Desc
  SuccessfulOps : Desc
  listBucketStats : String → String → Except CephError Bytes
  showBucketUsage : String → String → String → String → Except CephError Bytes

/-- The declared variable label names, `bucketLabel` (part_001 line 39). -/
def bucketLabel : List String := ["bucket", "user", "category"]

/-- `NewBucketUsageCollector` (part_001 lines 36-59).  The two trailing
parameters stand for the package-level functions `listBucketStats` and
`showBucketUsage` that the Go constructor assigns to the fields (in the
source they shell out to radosgw-admin, part_000 lines 35-61).  Note the
source's metric name for received bytes is spelled `bytes_recived`. -/
def NewBucketUsageCollector (exporter : Exporter)
    (listBucketStatsFn : String → String → Except CephError Bytes)
    (showBucketUsageFn : String → String → String → String → Except CephError Bytes) :
    BucketUsageCollector :=
  let subSystem := "bucket_usage"
  let labels : List (String × String) := [("cluster", exporter.Cluster)]
  { config := exporter.Config
    user := exporter.User
    version := exporter.Version
    listBucketStats := listBucketStatsFn
    showBucketUsage := showBucketUsageFn
    BytesSent := { fqName := cephNamespace ++ "_" ++ subSystem ++ "_bytes_sent",
                   help := "Number of bytes sent by the RADOS Gateway.",
                   variableLabels := bucketLabel, constLabels := labels }
    BytesReceived := { fqName := cephNamespace ++ "_" ++ subSystem ++ "_bytes_recived",
                       help := "Number of bytes received by the RADOS Gateway.",
                       variableLabels := bucketLabel, constLabels := labels }
    Ops := { fqName := cephNamespace ++ "_" ++ subSystem ++ "_ops",
             help := "Number of operations.",
             variableLabels := bucketLabel, constLabels := labels }
    SuccessfulOps := { fqName := cephNamespace ++ "_" ++ subSystem ++ "_successful_ops",
                       help := "Number of successful operations.",
                       variableLabels := bucketLabel, constLabels := labels } }

/-- The two nested emission loops of the fan-out goroutine (part_001
lines 91-98): for every summary and every category, four samples are sent,
each labelled `(bucket.Bucket, summary.User, category.Category)`. -/
def emitUsage (b : BucketUsageCollector) (bucket : Bucket) (usage : BucketUsage) :
    List Metric :=
  usage.summary.flatMap (fun summary =>
    summary.categories.flatMap (fun category =>
      [ { desc := b.BytesSent, value := category.bytesSent,
          labelValues := [bucket.bucket, summary.user, category.category] },
        { desc := b.BytesReceived, value := category.bytesReceived,
          labelValues := [bucket.bucket, summary.user, category.category] },
        { desc := b.Ops, value := category.ops,
          labelValues := [bucket.bucket, summary.user, category.category] },
        { desc := b.SuccessfulOps, value := category.successfulOps,
          labelValues := [bucket.bucket, summary.user, category.category] } ]))

/-- Body of one fan-out goroutine of `collect` (part_001 lines 79-99):
call `b.showBucketUsage`; on failure `buf` is nil, the goroutine still
falls through to `json.Unmarshal`, which then fails on the nil buffer and
overwrites `latestErr`; the usage value stays empty so nothing is
emitted.  Returns the samples sent and the task's final write (if any) to
the shared `latestErr` variable. -/
def bucketTask (b : BucketUsageCollector) (bucket : Bucket) :
    List Metric × Option CephError :=
  match b.showBucketUsage b.config b.user bucket.bucket bucket.owner with
  | .error showErr =>
    match jsonUnmarshalUsage none with
    | .error unmarshalErr => ([], some unmarshalErr)
    | .ok usage => (emitUsage b bucket usage, some showErr)
  | .ok buf =>
    match jsonUnmarshalUsage (some buf) with
    | .error unmarshalErr => ([], some unmarshalErr)
    | .ok usage => (emitUsage b bucket usage, none)

/-- One write to the shared `latestErr` variable: a failing task
overwrites it, a succeeding task leaves it alone (part_001 lines 84, 89). -/
def latestWrite (acc : Option CephError) (e : Option CephError) : Option CephError :=
  match e with
  | some err => some err
  | none => acc

/-- The aggregated `latestErr` after all tasks, sequentialized in
enumeration order: last write wins (spec §4.3 step 4). -/
def lastErr (writes : List (Option CephError)) : Option CephError :=
  writes.foldl latestWrite none

/-- `BucketUsageCollector.collect` (part_001 lines 61-103).  The first
parameter stands for the package-level `listBucketStats` function, which
line 62 calls directly (not through the `b.listBucketStats` field).  The
per-bucket goroutines are sequentialized in enumeration order; the result
is the list of samples sent on the channel and the aggregated error. -/
def BucketUsageCollector.collect
    (listBucketStatsPkg : String → String → Except CephError Bytes)
    (b : BucketUsageCollector) : List Metric × Option CephError :=
  match listBucketStatsPkg b.config b.user with
  | .error err => ([], some err)
  | .ok buf =>
    match jsonUnmarshalBuckets buf with
    | .error err => ([], some err)
    | .ok buckets =>
      (buckets.flatMap (fun bt => (bucketTask b bt).1),
       lastErr (buckets.map (fun bt => (bucketTask b bt).2)))

/-- `BucketUsageCollector.Describe` (part_001 lines 107-112). -/
def BucketUsageCollector.Describe (b : BucketUsageCollector) : List Desc :=
  [b.BytesSent, b.BytesReceived, b.Ops, b.SuccessfulOps]

/-- `BucketUsageCollector.Collect` (part_001 lines 116-122): run
`collect`; a non-nil error is logged and the method returns — the samples
already written by successful tasks stay on the channel. -/
def BucketUsageCollector.Collect
    (listBucketStatsPkg : String → String → Except CephError Bytes)
    (b : BucketUsageCollector) : List Metric × List LogEvent :=
  let r := BucketUsageCollector.collect listBucketStatsPkg b
  match r.2 with
  | some _ =>
    (r.1, [{ level := "debug", msg := "collecting bucket usage metrics" },
           { level := "error", msg := "error collecting bucket usage metrics" }])
  | none =>
    (r.1, [{ level := "debug", msg := "collecting bucket usage metrics" }])

/-- Modelled from the spec: `collectors.RGWModeDisabled` (the `collectors`
package is not under src/; exporter.go line 208 documents the values as
"0:disabled 1:enabled 2:background"). -/
def RGWModeDisabled : Int := 0

/-- Modelled from the spec: `collectors.RGWModeForeground` (value 1). -/
def RGWModeForeground : Int := 1

/-- Modelled from the spec: `collectors.RGWModeBackground` (value 2). -/
def RGWModeBackground : Int := 2

/-- The identity of one sub-collector in the active list built by
`getCollectors` (exporter.go lines 108-130).  The `rgw` variant records
the `background` flag passed to `NewRGWCollector`. -/
inductive Collector where
  | clusterUsage
  | poolUsage
  | poolInfo
  | clusterHealth
  | monitor
  | osd
  | rgw (background : Bool)
deriving DecidableEq, Repr

/-- `CephExporter` (exporter.go lines 83-90).  The mutex `mu` and the
shared connection are modelled separately: the lock discipline as a step
relation below, the connection as a function parameter of the operations. -/
structure CephExporter where
  cluster : String
  config : String
  rgwMode : Int
deriving DecidableEq, Repr

/-- The fixed list of the six standard sub-collectors (exporter.go
lines 109-116). -/
def standardCollectors : List Collector :=
  [.clusterUsage, .poolUsage, .poolInfo, .clusterHealth, .monitor, .osd]

/-- `CephExporter.getCollectors` (exporter.go lines 108-130): the six
standard sub-collectors, plus an RGW collector selected by `rgwMode`
(foreground mode passes `background=false`, background mode passes
`background=true`); an unrecognized mode logs a warning and adds nothing.
Returns the active list together with the log events emitted. -/
def CephExporter.getCollectors (c : CephExporter) : List Collector × List LogEvent :=
  if c.rgwMode = RGWModeForeground then
    (standardCollectors ++ [.rgw false], [])
  else if c.rgwMode = RGWModeBackground then
    (standardCollectors ++ [.rgw true], [])
  else if c.rgwMode = RGWModeDisabled then
    (standardCollectors, [])
  else
    (standardCollectors,
     [{ level := "warn", msg := "RGW collector disabled due to invalid mode" }])

/-- A Go value that can appear in the `map[string]interface{}` passed to
`json.Marshal` by `cephVersionCmd`: a string, or a value of a kind the
encoder rejects (e.g. a channel or function), to keep the encoder's
failure mode representable. -/
inductive GoValue where
  | str (s : String)
  | unsupportedKind
deriving DecidableEq, Repr

/-- JSON string quoting for the plain ASCII strings involved (none of the
inputs contains a character `encoding/json` escapes). -/
def jsonQuote (s : String) : String := "\"" ++ s ++ "\""

/-- Byte-wise comparison of key strings, as Go's encoder sorts map keys. -/
def charListLt : List Char → List Char → Bool
  | [], [] => false
  | [], _ :: _ => true
  | _ :: _, [] => false
  | a :: as, b :: bs =>
    if a.toNat < b.toNat then true
    else if b.toNat < a.toNat then false
    else charListLt as bs

/-- Insert one key/value pair into a key-sorted association list. -/
def insertByKey (kv : String × GoValue) :
    List (String × GoValue) → List (String × GoValue)
  | [] => [kv]
  | x :: xs =>
    if charListLt kv.1.toList x.1.toList then kv :: x :: xs
    else x :: insertByKey kv xs

/-- Sort an association list by key, as Go's encoder does for maps. -/
def sortByKey : List (String × GoValue) → List (String × GoValue)
  | [] => []
  | x :: xs => insertByKey x (sortByKey xs)

/-- Model of `json.Marshal` on a `map[string]interface{}`: encoding fails
exactly when some value is of an unsupported kind; otherwise the keys are
sorted and the object is rendered. -/
def jsonMarshalStringMap (m : List (String × GoValue)) : Option String :=
  if m.all (fun kv => kv.2 matches .str _) then
    some ("\x7b" ++
      String.intercalate ","
        ((sortByKey m).map (fun kv =>
          jsonQuote kv.1 ++ ":" ++
            (match kv.2 with
             | .str s => jsonQuote s
             | .unsupportedKind => ""))) ++ "\x7d")
  else
    none

/-- Outcome of `cephVersionCmd`: the marshalled payload, or the
`logger.Panic` branch taken on a marshal error (exporter.go line 138). -/
inductive MarshalOutcome where
  | payload (s : String)
  | panicked
deriving DecidableEq, Repr

/-- `CephExporter.cephVersionCmd` (exporter.go lines 132-142): marshal the
fixed two-entry map and panic on encode failure. -/
def CephExporter.cephVersionCmd (_c : CephExporter) : MarshalOutcome :=
  match jsonMarshalStringMap [("prefix", .str "version"), ("format", .str "json")] with
  | some cmd => .payload cmd
  | none => .panicked

/-- Model of `json.Unmarshal(buf, cephVersion)` into the anonymous struct
with the `version` string field (exporter.go lines 150-157). -/
def jsonUnmarshalVersion : Bytes → Except CephError String
  | .versionJson v => .ok v
  | _ => .error (.unmarshalError "cannot unmarshal version reply")

/-- Result of one `setCephVersion` run: either the panic propagated out of
`cephVersionCmd`, or a normal return carrying the returned error (if any)
and the resulting shared `CephVersion` slot. -/
inductive SetVersionResult where
  | panicked
  | returned (err : Option CephError) (slot : Option Version)
deriving DecidableEq, Repr

/-- `CephExporter.setCephVersion` (exporter.go lines 144-169).
`monCommand` stands for `c.conn.MonCommand` (the second, unused return
value of the Go call is dropped), `parseCephVersion` for
`version.ParseCephVersion`, and `slot` for the shared mutex-guarded
`CephVersion` variable, threaded explicitly. -/
def CephExporter.setCephVersion (c : CephExporter)
    (monCommand : String → Except CephError Bytes)
    (parseCephVersion : String → Except CephError Version)
    (slot : Option Version) : SetVersionResult :=
  match CephExporter.cephVersionCmd c with
  | .panicked => .panicked
  | .payload cmd =>
    match monCommand cmd with
    | .error err => .returned (some err) slot
    | .ok buf =>
      match jsonUnmarshalVersion buf with
      | .error err => .returned (some err) slot
      | .ok versionStr =>
        match parseCephVersion versionStr with
        | .error err => .returned (some err) slot
        | .ok parsedVersion => .returned none (some parsedVersion)

/-- Result of one `CephExporter.Collect` run: the panic propagated out of
the version command, or the samples emitted, the log events, the resulting
version slot, and the sub-collectors actually invoked. -/
inductive CollectResult where
  | panicked
  | emitted (samples : List Metric) (logs : List LogEvent)
      (slot : Option Version) (invoked : List Collector)
deriving DecidableEq, Repr

/-- `CephExporter.Collect` (exporter.go lines 188-201): refresh the
version — on failure log the error and return with nothing emitted —
then run every active sub-collector in order under the cycle lock.
`subCollect` stands for each sub-collector's `Collect` writing to the
shared channel. -/
def CephExporter.Collect (c : CephExporter)
    (monCommand : String → Except CephError Bytes)
    (parseCephVersion : String → Except CephError Version)
    (slot : Option Version)
    (subCollect : Collector → List Metric) : CollectResult :=
  match CephExporter.setCephVersion c monCommand parseCephVersion slot with
  | .panicked => .panicked
  | .returned (some _) newSlot =>
    .emitted [] [{ level := "error", msg := "failed to set ceph version" }] newSlot []
  | .returned none newSlot =>
    let active := CephExporter.getCollectors c
    .emitted (active.1.flatMap subCollect) active.2 newSlot active.1

/-- Result of one `CephExporter.Describe` run, mirroring `CollectResult`
with descriptors in place of samples. -/
inductive DescribeResult where
  | panicked
  | emitted (descs : List Desc) (logs : List LogEvent)
      (slot : Option Version) (invoked : List Collector)
deriving DecidableEq, Repr

/-- `CephExporter.Describe` (exporter.go lines 173-183): refresh the
version — on failure log the error and return with nothing emitted — then
forward every active sub-collector's descriptors. -/
def CephExporter.Describe (c : CephExporter)
    (monCommand : String → Except CephError Bytes)
    (parseCephVersion : String → Except CephError Version)
    (slot : Option Version)
    (subDescribe : Collector → List Desc) : DescribeResult :=
  match CephExporter.setCephVersion c monCommand parseCephVersion slot with
  | .panicked => .panicked
  | .returned (some _) newSlot =>
    .emitted [] [{ level := "error", msg := "failed to set ceph version" }] newSlot []
  | .returned none newSlot =>
    let active := CephExporter.getCollectors c
    .emitted (active.1.flatMap subDescribe) active.2 newSlot active.1

/-- The errno of `syscall.EMFILE` on Linux (file-descriptor exhaustion). -/
def EMFILE : Nat := 24

/-- The error returned by a failed `AcceptTCP`: either a `*net.OpError`
wrapping an `*os.SyscallError` with an errno, or some other error shape. -/
inductive NetError where
  | opSyscallError (errno : Nat)
  | opOtherError (msg : String)
  | plainError (msg : String)
deriving DecidableEq, Repr

/-- The keep-alive state of an accepted TCP connection.  `connId`
identifies the underlying connection; the keep-alive period is in
seconds. -/
structure TCPConn where
  connId : Nat
  keepAlive : Bool
  keepAlivePeriodSec : Nat
deriving DecidableEq, Repr

/-- The constant `keepAlive = 3 * time.Minute` (exporter.go line 55),
in seconds. -/
def keepAlivePeriod : Nat := 3 * 60

/-- Outcome of one `Accept` call on the wrapped listener: a fatal log that
terminates the process, an error returned to the caller, or an accepted
connection. -/
inductive AcceptResult where
  | fatalExit (msg : String)
  | failed (err : NetError)
  | accepted (conn : TCPConn)
deriving DecidableEq, Repr

/-- `emfileAwareTcpListener.Accept` (exporter.go lines 62-76): if the
underlying `AcceptTCP` (passed in as its result) fails with an OpError
wrapping a SyscallError whose errno is EMFILE, log fatally (process
termination); any other error is returned unchanged; on success the
connection gets keep-alive enabled with the fixed period. -/
def emfileAwareTcpListener.Accept (acceptTCP : Except NetError TCPConn) :
    AcceptResult :=
  match acceptTCP with
  | .error err =>
    match err with
    | .opSyscallError errno =>
      if errno = EMFILE then .fatalExit "running out of file descriptors"
      else .failed err
    | _ => .failed err
  | .ok tc =>
    .accepted { tc with keepAlive := true, keepAlivePeriodSec := keepAlivePeriod }

/-- Where one `CephExporter.Collect` invocation stands (exporter.go
lines 188-201): not yet started; inside `setCephVersion` (line 189, before
the lock); waiting at `c.mu.Lock()` (line 195); holding the lock and
running the sub-collectors (lines 195-200); returned (either after the
early return on a refresh error or after the deferred unlock). -/
inductive TPhase where
  | idle
  | refresh
  | waitLock
  | critical
  | finished
deriving DecidableEq, Repr

/-- A configuration of two concurrent `Collect` invocations on one
`CephExporter`: each thread's phase and whether `c.mu` is held. -/
structure SysConfig where
  t1 : TPhase
  t2 : TPhase
  mu : Bool
deriving DecidableEq, Repr

/-- Interleaving small-step relation for two concurrent `Collect`
invocations.  Each thread independently enters `setCephVersion` (which is
executed *before* the mutex is acquired), finishes it with success or
failure (failure returns early), acquires the free mutex, and releases it
when its sub-collector loop is done. -/
inductive CStep : SysConfig → SysConfig → Prop where
  | enterRefresh1 (s : SysConfig) (h : s.t1 = .idle) :
      CStep s { s with t1 := .refresh }
  | refreshOk1 (s : SysConfig) (h : s.t1 = .refresh) :
      CStep s { s with t1 := .waitLock }
  | refreshFail1 (s : SysConfig) (h : s.t1 = .refresh) :
      CStep s { s with t1 := .finished }
  | lockAcquire1 (s : SysConfig) (h : s.t1 = .waitLock) (hmu : s.mu = false) :
      CStep s { s with t1 := .critical, mu := true }
  | unlock1 (s : SysConfig) (h : s.t1 = .critical) :
      CStep s { s with t1 := .finished, mu := false }
  | enterRefresh2 (s : SysConfig) (h : s.t2 = .idle) :
      CStep s { s with t2 := .refresh }
  | refreshOk2 (s : SysConfig) (h : s.t2 = .refresh) :
      CStep s { s with t2 := .waitLock }
  | refreshFail2 (s : SysConfig) (h : s.t2 = .refresh) :
      CStep s { s with t2 := .finished }
  | lockAcquire2 (s : SysConfig) (h : s.t2 = .waitLock) (hmu : s.mu = false) :
      CStep s { s with t2 := .critical, mu := true }
  | unlock2 (s : SysConfig) (h : s.t2 = .critical) :
      CStep s { s with t2 := .finished, mu := false }

/-- The initial configuration: neither invocation has started, the mutex
is free. -/
def sysInit : SysConfig := { t1 := .idle, t2 := .idle, mu := false }

/-- Configurations reachable from `sysInit` by interleaved steps. -/
inductive Reachable : SysConfig → Prop where
  | init : Reachable sysInit
  | step {s s2 : SysConfig} (hr : Reachable s) (hs : CStep s s2) : Reachable s2

/-- A thread is mid-execution when its invocation has begun and has not
yet returned. -/
def midExecution (p : TPhase) : Prop := p ≠ .idle ∧ p ≠ .finished

instance (p : TPhase) : Decidable (midExecution p) := by
  unfold midExecution; infer_instance

/-- Both concurrent `Collect` invocations are mid-execution at once —
their executions interleave. -/
def bothMidExecution (s : SysConfig) : Prop :=
  midExecution s.t1 ∧ midExecution s.t2

/-- The version command payload marshals to the fixed JSON object (keys
sorted by the encoder), so the panic branch is never taken.  Shared
helper. -/
lemma cephVersionCmd_eq (c : CephExporter) :
    CephExporter.cephVersionCmd c =
      .payload "\x7b\"format\":\"json\",\"prefix\":\"version\"\x7d" := rfl

/-- C9: `cephVersionCmd` always returns the same fixed byte payload — the
JSON encoding of the map with entries `prefix ↦ version` and
`format ↦ json` (keys in the encoder's sorted order) — for every
invocation, and the panic branch is unreachable: encoding the constant
payload never fails. -/
theorem C9_cephVersionCmd_fixed_payload_no_panic :
    ∀ c c2 : CephExporter,
      CephExporter.cephVersionCmd c =
        MarshalOutcome.payload "\x7b\"format\":\"json\",\"prefix\":\"version\"\x7d" ∧
      CephExporter.cephVersionCmd c = CephExporter.cephVersionCmd c2 ∧
      CephExporter.cephVersionCmd c ≠ MarshalOutcome.panicked := by
  intro c c2
  refine ⟨cephVersionCmd_eq c, ?_, ?_⟩
  · rw [cephVersionCmd_eq c, cephVersionCmd_eq c2]
  · rw [cephVersionCmd_eq c]; simp

/-- C7: on the fail-fast listener, an EMFILE accept error terminates the
process via a fatal log; any other accept error is returned unchanged
with no termination; a successful accept returns the same connection with
keep-alive enabled and the fixed 3-minute (180 s) keep-alive period. -/
theorem C7_accept_emfile_fatal_other_unchanged_success_keepalive :
    ∀ (err : NetError) (tc : TCPConn),
      emfileAwareTcpListener.Accept (.error (.opSyscallError EMFILE)) =
        .fatalExit "running out of file descriptors" ∧
      (err ≠ .opSyscallError EMFILE →
        emfileAwareTcpListener.Accept (.error err) = .failed err) ∧
      emfileAwareTcpListener.Accept (.ok tc) =
        .accepted { tc with keepAlive := true, keepAlivePeriodSec := keepAlivePeriod } ∧
      keepAlivePeriod = 3 * 60 := by
  intro err tc
  refine ⟨rfl, ?_, rfl, rfl⟩
  intro hne
  cases err with
  | opSyscallError errno =>
    simp only [emfileAwareTcpListener.Accept]
    rw [if_neg]
    intro h
    exact hne (by rw [h])
  | opOtherError msg => rfl
  | plainError msg => rfl

/-- C7 witness: a concrete non-EMFILE accept error (ECONNABORTED-style
OpError with errno 103) is returned unchanged. -/
theorem C7_accept_witness :
    NetError.opSyscallError 103 ≠ NetError.opSyscallError EMFILE ∧
    emfileAwareTcpListener.Accept (.error (.opSyscallError 103)) =
      .failed (.opSyscallError 103) := by
  refine ⟨by decide, ?_⟩
  exact (C7_accept_emfile_fatal_other_unchanged_success_keepalive
    (.opSyscallError 103) ⟨0, false, 0⟩).2.1 (by decide)

/-- C6: the active sub-collector list is determined by the gateway mode
alone: mode 1 appends a foreground RGW collector to the six standard
sub-collectors, mode 2 appends a background one, mode 0 appends none, and
every unrecognized mode yields no RGW collector plus a logged warning
while the six standard sub-collectors remain; no mode aborts the cycle
(the standard list is always returned). -/
theorem C6_getCollectors_mode_dispatch :
    ∀ c c2 : CephExporter,
      (c.rgwMode = RGWModeForeground →
        CephExporter.getCollectors c = (standardCollectors ++ [.rgw false], [])) ∧
      (c.rgwMode = RGWModeBackground →
        CephExporter.getCollectors c = (standardCollectors ++ [.rgw true], [])) ∧
      (c.rgwMode = RGWModeDisabled →
        CephExporter.getCollectors c = (standardCollectors, [])) ∧
      (c.rgwMode ≠ RGWModeDisabled → c.rgwMode ≠ RGWModeForeground →
        c.rgwMode ≠ RGWModeBackground →
        CephExporter.getCollectors c =
          (standardCollectors,
           [{ level := "warn", msg := "RGW collector disabled due to invalid mode" }])) ∧
      (CephExporter.getCollectors c).1.take 6 = standardCollectors ∧
      (c.rgwMode = c2.rgwMode →
        CephExporter.getCollectors c = CephExporter.getCollectors c2) := by
  intro c c2
  refine ⟨?_, ?_, ?_, ?_, ?_, ?_⟩
  · intro h; simp [CephExporter.getCollectors, h, RGWModeForeground]
  · intro h
    simp [CephExporter.getCollectors, h,
      RGWModeForeground, RGWModeBackground]
  · intro h
    simp [CephExporter.getCollectors, h,
      RGWModeForeground, RGWModeBackground, RGWModeDisabled]
  · intro h0 h1 h2
    simp [CephExporter.getCollectors, h0, h1, h2]
  · unfold CephExporter.getCollectors
    split
    · rfl
    · split
      · rfl
      · split <;> rfl
  · intro h; simp [CephExporter.getCollectors, h]

/-- C6 witness: gateway mode 99 is unrecognized — the six standard
sub-collectors stay active, no RGW collector is added, and the warning is
logged. -/
theorem C6_getCollectors_witness :
    ((99 : Int) ≠ RGWModeDisabled ∧ (99 : Int) ≠ RGWModeForeground ∧
      (99 : Int) ≠ RGWModeBackground) ∧
    CephExporter.getCollectors { cluster := "ceph", config := "/etc/ceph/ceph.conf", rgwMode := 99 } =
      (standardCollectors,
       [{ level := "warn", msg := "RGW collector disabled due to invalid mode" }]) := by
  refine ⟨⟨by decide, by decide, by decide⟩, ?_⟩
  exact (C6_getCollectors_mode_dispatch
    { cluster := "ceph", config := "/etc/ceph/ceph.conf", rgwMode := 99 }
    { cluster := "ceph", config := "/etc/ceph/ceph.conf", rgwMode := 99 }).2.2.2.1
    (by decide) (by decide) (by decide)

/-- C4: every failing execution of `setCephVersion` — command
transmission failure, payload decode failure, or version parse failure —
returns the failing step's non-nil error and leaves the shared
`CephVersion` slot unchanged. -/
theorem C4_setCephVersion_failure_keeps_slot :
    ∀ (c : CephExporter) (mon : String → Except CephError Bytes)
      (parse : String → Except CephError Version) (slot : Option Version)
      (cmd : String),
      CephExporter.cephVersionCmd c = .payload cmd →
      (∀ e, mon cmd = .error e →
        CephExporter.setCephVersion c mon parse slot = .returned (some e) slot) ∧
      (∀ buf e, mon cmd = .ok buf → jsonUnmarshalVersion buf = .error e →
        CephExporter.setCephVersion c mon parse slot = .returned (some e) slot) ∧
      (∀ buf vs e, mon cmd = .ok buf → jsonUnmarshalVersion buf = .ok vs →
        parse vs = .error e →
        CephExporter.setCephVersion c mon parse slot = .returned (some e) slot) := by
  intro c mon parse slot cmd hcmd
  refine ⟨?_, ?_, ?_⟩
  · intro e he
    simp only [CephExporter.setCephVersion, hcmd, he]
  · intro buf e hbuf he
    simp only [CephExporter.setCephVersion, hcmd, hbuf, he]
  · intro buf vs e hbuf hvs he
    simp only [CephExporter.setCephVersion, hcmd, hbuf, hvs, he]

/-- C4 witness: with a previously stored version 14.2.22 in the slot and a
mon command that fails to transmit, `setCephVersion` returns that error
and the slot still holds 14.2.22. -/
theorem C4_setCephVersion_witness :
    CephExporter.cephVersionCmd
        { cluster := "ceph", config := "/etc/ceph/ceph.conf", rgwMode := 0 } =
      .payload "\x7b\"format\":\"json\",\"prefix\":\"version\"\x7d" ∧
    (fun (_ : String) => (.error (.cmdError "connection refused") :
        Except CephError Bytes)) "\x7b\"format\":\"json\",\"prefix\":\"version\"\x7d" =
      .error (.cmdError "connection refused") ∧
    CephExporter.setCephVersion
        { cluster := "ceph", config := "/etc/ceph/ceph.conf", rgwMode := 0 }
        (fun _ => .error (.cmdError "connection refused"))
        (fun s => .ok { major := 0, minor := 0, patch := 0, raw := s })
        (some { major := 14, minor := 2, patch := 22, raw := "ceph version 14.2.22" }) =
      .returned (some (.cmdError "connection refused"))
        (some { major := 14, minor := 2, patch := 22, raw := "ceph version 14.2.22" }) := by
  refine ⟨rfl, rfl, ?_⟩
  exact (C4_setCephVersion_failure_keeps_slot
    { cluster := "ceph", config := "/etc/ceph/ceph.conf", rgwMode := 0 }
    (fun _ => .error (.cmdError "connection refused"))
    (fun s => .ok { major := 0, minor := 0, patch := 0, raw := s })
    (some { major := 14, minor := 2, patch := 22, raw := "ceph version 14.2.22" })
    "\x7b\"format\":\"json\",\"prefix\":\"version\"\x7d" rfl).1
    (.cmdError "connection refused") rfl

/-- C5: when the version refresh fails, `Collect` emits zero samples and
`Describe` emits zero descriptors, both log the error, no sub-collector
is invoked, and neither panics. -/
theorem C5_version_failure_emits_nothing :
    ∀ (c : CephExporter) (mon : String → Except CephError Bytes)
      (parse : String → Except CephError Version) (slot : Option Version)
      (subCollect : Collector → List Metric) (subDescribe : Collector → List Desc)
      (e : CephError) (slot2 : Option Version),
      CephExporter.setCephVersion c mon parse slot = .returned (some e) slot2 →
      CephExporter.Collect c mon parse slot subCollect =
        .emitted [] [{ level := "error", msg := "failed to set ceph version" }] slot2 [] ∧
      CephExporter.Describe c mon parse slot subDescribe =
        .emitted [] [{ level := "error", msg := "failed to set ceph version" }] slot2 [] := by
  intro c mon parse slot subCollect subDescribe e slot2 h
  constructor
  · simp only [CephExporter.Collect, h]
  · simp only [CephExporter.Describe, h]

/-- C5 witness: a concrete exporter whose mon command fails emits zero
samples and zero descriptors, logs the error, and invokes no
sub-collector. -/
theorem C5_version_failure_witness :
    CephExporter.setCephVersion
        { cluster := "ceph", config := "/etc/ceph/ceph.conf", rgwMode := 1 }
        (fun _ => .error (.cmdError "timeout")) (fun _ => .error (.versionParseError "x"))
        none =
      .returned (some (.cmdError "timeout")) none ∧
    CephExporter.Collect
        { cluster := "ceph", config := "/etc/ceph/ceph.conf", rgwMode := 1 }
        (fun _ => .error (.cmdError "timeout")) (fun _ => .error (.versionParseError "x"))
        none (fun _ => [{ desc := { fqName := "m", help := "", variableLabels := [],
                                    constLabels := [] },
                          value := 1, labelValues := [] }]) =
      .emitted [] [{ level := "error", msg := "failed to set ceph version" }] none [] ∧
    CephExporter.Describe
        { cluster := "ceph", config := "/etc/ceph/ceph.conf", rgwMode := 1 }
        (fun _ => .error (.cmdError "timeout")) (fun _ => .error (.versionParseError "x"))
        none (fun _ => [{ fqName := "m", help := "", variableLabels := [],
                          constLabels := [] }]) =
      .emitted [] [{ level := "error", msg := "failed to set ceph version" }] none [] := by
  have h := C5_version_failure_emits_nothing
    { cluster := "ceph", config := "/etc/ceph/ceph.conf", rgwMode := 1 }
    (fun _ => .error (.cmdError "timeout")) (fun _ => .error (.versionParseError "x"))
    none
    (fun _ => [{ desc := { fqName := "m", help := "", variableLabels := [],
                           constLabels := [] },
                 value := 1, labelValues := [] }])
    (fun _ => [{ fqName := "m", help := "", variableLabels := [], constLabels := [] }])
    (.cmdError "timeout") none rfl
  exact ⟨rfl, h.1, h.2⟩

/-- C10: `collect` (and the top-level `Collect`) of two collectors that
differ only in their `listBucketStats` function field coincide on every
external input: enumeration goes through the package-level function
passed as `listBucketStatsPkg`, never through the field. -/
theorem C10_collect_ignores_listBucketStats_field :
    ∀ (listBucketStatsPkg : String → String → Except CephError Bytes)
      (b : BucketUsageCollector)
      (f : String → String → Except CephError Bytes),
      BucketUsageCollector.collect listBucketStatsPkg { b with listBucketStats := f } =
        BucketUsageCollector.collect listBucketStatsPkg b ∧
      BucketUsageCollector.Collect listBucketStatsPkg { b with listBucketStats := f } =
        BucketUsageCollector.Collect listBucketStatsPkg b := by
  intro listBucketStatsPkg b f
  rcases b with ⟨config, user, version, bs, br, ops, sops, lbs, sbu⟩
  exact ⟨rfl, rfl⟩

/-- Bucket A of the concrete three-bucket scenario (spec §8). -/
def bucketA : Bucket :=
  { bucket := "A", numShards := 1, id := "idA", owner := "alice",
    mtime := "2021-01-01", creationTime := "2020-01-01" }

/-- Bucket B of the concrete three-bucket scenario (its usage lookup
fails). -/
def bucketB : Bucket :=
  { bucket := "B", numShards := 1, id := "idB", owner := "bob",
    mtime := "2021-01-01", creationTime := "2020-01-01" }

/-- Bucket C of the concrete three-bucket scenario. -/
def bucketC : Bucket :=
  { bucket := "C", numShards := 1, id := "idC", owner := "carol",
    mtime := "2021-01-01", creationTime := "2020-01-01" }

/-- The exporter configuration of the concrete scenario. -/
def scenarioExporter : Exporter :=
  { Cluster := "ceph", Config := "/etc/ceph/ceph.conf", User := "admin",
    Version := none }

/-- Scenario enumeration: `bucket stats` returns exactly A, B, C. -/
def scenarioList : String → String → Except CephError Bytes :=
  fun _ _ => .ok (.bucketsJson [bucketA, bucketB, bucketC])

/-- Scenario usage payload: one summary for the given uid with the single
category put_obj, sent=100, received=50, ops=5, successful=5. -/
def scenarioUsage (uid : String) : BucketUsage :=
  { summary := [{ user := uid,
                  categories := [{ category := "put_obj", bytesSent := 100,
                                   bytesReceived := 50, ops := 5,
                                   successfulOps := 5 }] }] }

/-- Scenario usage lookup: fails for bucket B, succeeds for A and C. -/
def scenarioShow : String → String → String → String → Except CephError Bytes :=
  fun _ _ bucketName uid =>
    if bucketName = "B" then .error (.cmdError "usage show failed for B")
    else .ok (.usageJson (scenarioUsage uid))

/-- The scenario's bucket-usage collector. -/
def scenarioCollector : BucketUsageCollector :=
  NewBucketUsageCollector scenarioExporter scenarioList scenarioShow

/-- C3: with enumeration returning exactly A, B, C, the usage lookup for B
failing, and A and C succeeding with one put_obj category
(sent=100, received=50, ops=5, successful=5), `collect` emits exactly the
two sets of four samples for A and C, returns a non-nil aggregated error,
and emits no sample carrying the label value "B". -/
theorem C3_three_bucket_scenario :
    (BucketUsageCollector.collect scenarioList scenarioCollector).1 =
      [ { desc := scenarioCollector.BytesSent, value := 100,
          labelValues := ["A", "alice", "put_obj"] },
        { desc := scenarioCollector.BytesReceived, value := 50,
          labelValues := ["A", "alice", "put_obj"] },
        { desc := scenarioCollector.Ops, value := 5,
          labelValues := ["A", "alice", "put_obj"] },
        { desc := scenarioCollector.SuccessfulOps, value := 5,
          labelValues := ["A", "alice", "put_obj"] },
        { desc := scenarioCollector.BytesSent, value := 100,
          labelValues := ["C", "carol", "put_obj"] },
        { desc := scenarioCollector.BytesReceived, value := 50,
          labelValues := ["C", "carol", "put_obj"] },
        { desc := scenarioCollector.Ops, value := 5,
          labelValues := ["C", "carol", "put_obj"] },
        { desc := scenarioCollector.SuccessfulOps, value := 5,
          labelValues := ["C", "carol", "put_obj"] } ] ∧
    ((BucketUsageCollector.collect scenarioList scenarioCollector).2).isSome = true ∧
    ((BucketUsageCollector.collect scenarioList scenarioCollector).1).all
      (fun s => !(s.labelValues.contains "B")) = true := by
  refine ⟨rfl, rfl, rfl⟩

/-- A fan-out task that wrote an error sent no samples: on a failed usage
lookup the nil buffer fails to unmarshal and the usage value stays empty,
and on a failed unmarshal likewise. -/
lemma bucketTask_failed_samples (b : BucketUsageCollector) (bt : Bucket) :
    ((bucketTask b bt).2).isSome → (bucketTask b bt).1 = [] := by
  unfold bucketTask
  cases hshow : b.showBucketUsage b.config b.user bt.bucket bt.owner with
  | error showErr => simp [jsonUnmarshalUsage]
  | ok buf =>
    cases hdec : jsonUnmarshalUsage (some buf) with
    | error e => simp [hdec]
    | ok usage => simp [hdec]

/-- If some write in the list is an error, the last-write-wins fold ends
non-nil, whatever the accumulator. -/
lemma foldl_latestWrite_isSome :
    ∀ (writes : List (Option CephError)) (acc : Option CephError),
      ((∃ x ∈ writes, x.isSome) ∨ acc.isSome) →
      (writes.foldl latestWrite acc).isSome := by
  intro writes
  induction writes with
  | nil =>
    intro acc h
    rcases h with ⟨x, hx, _⟩ | h
    · exact absurd hx (List.not_mem_nil x)
    · exact h
  | cons y ys ih =>
    intro acc h
    rw [List.foldl_cons]
    cases y with
    | some err => exact ih (latestWrite acc (some err)) (Or.inr rfl)
    | none =>
      rcases h with ⟨x, hx, hxs⟩ | h
      · rcases List.mem_cons.mp hx with hxy | hxys
        · subst hxy; exact absurd hxs (by simp)
        · exact ih (latestWrite acc none) (Or.inl ⟨x, hxys, hxs⟩)
      · exact ih (latestWrite acc none) (Or.inr h)

/-- If any task wrote an error, the aggregated `latestErr` is non-nil. -/
lemma lastErr_isSome_of_mem {writes : List (Option CephError)}
    {x : Option CephError} (hm : x ∈ writes) (hs : x.isSome) :
    (lastErr writes).isSome :=
  foldl_latestWrite_isSome writes none (Or.inl ⟨x, hm, hs⟩)

/-- C2: when enumeration succeeds with buckets `buckets` and at least one
per-bucket usage task fails, `collect` still emits exactly the samples of
every succeeding bucket (in enumeration order, neither retried nor
aborted), failing buckets contribute no samples, and the aggregated error
is non-nil. -/
theorem C2_fanout_partial_failure :
    ∀ (listBucketStatsPkg : String → String → Except CephError Bytes)
      (b : BucketUsageCollector) (buckets : List Bucket),
      listBucketStatsPkg b.config b.user = .ok (.bucketsJson buckets) →
      (∃ bt ∈ buckets, ((bucketTask b bt).2).isSome) →
      ((BucketUsageCollector.collect listBucketStatsPkg b).2).isSome ∧
      (BucketUsageCollector.collect listBucketStatsPkg b).1 =
        buckets.flatMap (fun bt => (bucketTask b bt).1) ∧
      ∀ bt ∈ buckets, ((bucketTask b bt).2).isSome → (bucketTask b bt).1 = [] := by
  intro listBucketStatsPkg b buckets hpkg hfail
  have hc : BucketUsageCollector.collect listBucketStatsPkg b =
      (buckets.flatMap (fun bt => (bucketTask b bt).1),
       lastErr (buckets.map (fun bt => (bucketTask b bt).2))) := by
    simp only [BucketUsageCollector.collect, hpkg, jsonUnmarshalBuckets]
  refine ⟨?_, ?_, ?_⟩
  · rw [hc]
    obtain ⟨bt, hm, hs⟩ := hfail
    exact lastErr_isSome_of_mem
      (List.mem_map_of_mem (fun bt => (bucketTask b bt).2) hm) hs
  · rw [hc]
  · intro bt _ hs
    exact bucketTask_failed_samples b bt hs

/-- C2 witness: in the concrete three-bucket scenario, B's task fails, the
aggregated error is non-nil, and the emitted samples are exactly the
per-bucket task outputs of A, B, C in order (B contributing none). -/
theorem C2_fanout_witness :
    (scenarioList scenarioCollector.config scenarioCollector.user =
        .ok (.bucketsJson [bucketA, bucketB, bucketC]) ∧
      ((bucketTask scenarioCollector bucketB).2).isSome) ∧
    (((BucketUsageCollector.collect scenarioList scenarioCollector).2).isSome ∧
      (BucketUsageCollector.collect scenarioList scenarioCollector).1 =
        [bucketA, bucketB, bucketC].flatMap
          (fun bt => (bucketTask scenarioCollector bt).1) ∧
      ∀ bt ∈ [bucketA, bucketB, bucketC],
        ((bucketTask scenarioCollector bt).2).isSome →
        (bucketTask scenarioCollector bt).1 = []) := by
  refine ⟨⟨rfl, by decide⟩, ?_⟩
  exact C2_fanout_partial_failure scenarioList scenarioCollector
    [bucketA, bucketB, bucketC] rfl ⟨bucketB, by decide, by decide⟩

/-- Every sample emitted by the two nested usage loops carries the label
values `(bucket, user, category)` of its source records, under one of the
collector's four descriptors. -/
lemma mem_emitUsage {b : BucketUsageCollector} {bt : Bucket}
    {usage : BucketUsage} {s : Metric} (h : s ∈ emitUsage b bt usage) :
    ∃ sm ∈ usage.summary, ∃ cat ∈ sm.categories,
      s.labelValues = [bt.bucket, sm.user, cat.category] ∧
      s.desc ∈ [b.BytesSent, b.BytesReceived, b.Ops, b.SuccessfulOps] := by
  unfold emitUsage at h
  rw [List.mem_flatMap] at h
  obtain ⟨sm, hsm, h⟩ := h
  rw [List.mem_flatMap] at h
  obtain ⟨cat, hcat, h⟩ := h
  refine ⟨sm, hsm, cat, hcat, ?_⟩
  simp only [List.mem_cons, List.not_mem_nil, or_false] at h
  rcases h with h | h | h | h <;> subst h <;> simp

/-- Every sample in the output of `collect` originates from a successfully
enumerated bucket whose usage lookup succeeded and decoded. -/
lemma mem_collect {listBucketStatsPkg : String → String → Except CephError Bytes}
    {b : BucketUsageCollector} {s : Metric}
    (h : s ∈ (BucketUsageCollector.collect listBucketStatsPkg b).1) :
    ∃ buckets, listBucketStatsPkg b.config b.user = .ok (.bucketsJson buckets) ∧
      ∃ bt ∈ buckets, ∃ usage,
        b.showBucketUsage b.config b.user bt.bucket bt.owner = .ok (.usageJson usage) ∧
        s ∈ emitUsage b bt usage := by
  unfold BucketUsageCollector.collect at h
  cases hpkg : listBucketStatsPkg b.config b.user with
  | error e => simp only [hpkg, List.not_mem_nil] at h
  | ok buf =>
    simp only [hpkg] at h
    cases buf with
    | bucketsJson buckets =>
      simp only [jsonUnmarshalBuckets] at h
      rw [List.mem_flatMap] at h
      obtain ⟨bt, hbt, hs⟩ := h
      refine ⟨buckets, rfl, bt, hbt, ?_⟩
      unfold bucketTask at hs
      cases hshow : b.showBucketUsage b.config b.user bt.bucket bt.owner with
      | error e => simp only [hshow, jsonUnmarshalUsage, List.not_mem_nil] at hs
      | ok buf2 =>
        simp only [hshow] at hs
        cases buf2 with
        | usageJson usage =>
          simp only [jsonUnmarshalUsage] at hs
          exact ⟨usage, rfl, hs⟩
        | bucketsJson l => simp [jsonUnmarshalUsage] at hs
        | versionJson v => simp [jsonUnmarshalUsage] at hs
        | malformed => simp [jsonUnmarshalUsage] at hs
    | usageJson u => simp [jsonUnmarshalBuckets] at h
    | versionJson v => simp [jsonUnmarshalBuckets] at h
    | malformed => simp [jsonUnmarshalBuckets] at h

/-- C8: every sample emitted by `collect` on a collector built by
`NewBucketUsageCollector` is under a descriptor declaring the label names
`["bucket", "user", "category"]`, carries exactly as many label values as
declared names, and those values are the bucket identifier, owning user,
and category of its source records, in that declared order. -/
theorem C8_sample_labels_match_descriptor :
    ∀ (exporter : Exporter)
      (listBucketStatsFn : String → String → Except CephError Bytes)
      (showBucketUsageFn : String → String → String → String → Except CephError Bytes)
      (listBucketStatsPkg : String → String → Except CephError Bytes) (s : Metric),
      s ∈ (BucketUsageCollector.collect listBucketStatsPkg
            (NewBucketUsageCollector exporter listBucketStatsFn showBucketUsageFn)).1 →
      s.desc.variableLabels = bucketLabel ∧
      s.labelValues.length = s.desc.variableLabels.length ∧
      ∃ buckets bt usage sm cat,
        listBucketStatsPkg exporter.Config exporter.User =
          .ok (.bucketsJson buckets) ∧
        bt ∈ buckets ∧
        showBucketUsageFn exporter.Config exporter.User bt.bucket bt.owner =
          .ok (.usageJson usage) ∧
        sm ∈ usage.summary ∧ cat ∈ sm.categories ∧
        s.labelValues = [bt.bucket, sm.user, cat.category] := by
  intro exporter listBucketStatsFn showBucketUsageFn listBucketStatsPkg s h
  obtain ⟨buckets, hpkg, bt, hbt, usage, hshow, hmem⟩ := mem_collect h
  obtain ⟨sm, hsm, cat, hcat, hlabels, hdesc⟩ := mem_emitUsage hmem
  have hvl : s.desc.variableLabels = bucketLabel := by
    simp only [List.mem_cons, List.not_mem_nil, or_false] at hdesc
    rcases hdesc with h1 | h1 | h1 | h1 <;> rw [h1] <;> rfl
  refine ⟨hvl, ?_, buckets, bt, usage, sm, cat, hpkg, hbt, hshow, hsm, hcat, hlabels⟩
  rw [hvl, hlabels]; rfl

/-- C8 witness: the first sample of the concrete scenario (bucket A's
bytes-sent gauge) carries exactly the three label values
`["A", "alice", "put_obj"]` matching its descriptor's declared names. -/
theorem C8_sample_labels_witness :
    ({ desc := scenarioCollector.BytesSent, value := 100,
       labelValues := ["A", "alice", "put_obj"] } : Metric) ∈
      (BucketUsageCollector.collect scenarioList scenarioCollector).1 ∧
    (({ desc := scenarioCollector.BytesSent, value := 100,
        labelValues := ["A", "alice", "put_obj"] } : Metric)).desc.variableLabels =
      bucketLabel ∧
    (({ desc := scenarioCollector.BytesSent, value := 100,
        labelValues := ["A", "alice", "put_obj"] } : Metric)).labelValues.length =
      (({ desc := scenarioCollector.BytesSent, value := 100,
          labelValues := ["A", "alice", "put_obj"] } : Metric)).desc.variableLabels.length ∧
    ∃ buckets bt usage sm cat,
      scenarioList scenarioExporter.Config scenarioExporter.User =
        .ok (.bucketsJson buckets) ∧
      bt ∈ buckets ∧
      scenarioShow scenarioExporter.Config scenarioExporter.User bt.bucket bt.owner =
        .ok (.usageJson usage) ∧
      sm ∈ usage.summary ∧ cat ∈ sm.categories ∧
      (({ desc := scenarioCollector.BytesSent, value := 100,
          labelValues := ["A", "alice", "put_obj"] } : Metric)).labelValues =
        [bt.bucket, sm.user, cat.category] := by
  refine ⟨by decide, ?_⟩
  exact C8_sample_labels_match_descriptor scenarioExporter scenarioList scenarioShow
    scenarioList
    { desc := scenarioCollector.BytesSent, value := 100,
      labelValues := ["A", "alice", "put_obj"] } (by decide)

/-- Lock invariant of the two-thread `Collect` system: a thread in the
critical section holds the mutex, and the two threads are never in the
critical section together. -/
def LockInv (s : SysConfig) : Prop :=
  (s.t1 = .critical → s.mu = true) ∧
  (s.t2 = .critical → s.mu = true) ∧
  ¬(s.t1 = .critical ∧ s.t2 = .critical)

/-- The initial configuration satisfies the lock invariant. -/
lemma lockInv_init : LockInv sysInit := by
  unfold LockInv sysInit
  refine ⟨?_, ?_, ?_⟩ <;> simp

/-- The lock invariant is preserved by every interleaved step. -/
lemma lockInv_step {s s2 : SysConfig} (h : LockInv s) (hs : CStep s s2) :
    LockInv s2 := by
  obtain ⟨h1, h2, h12⟩ := h
  cases hs with
  | enterRefresh1 ht =>
    refine ⟨?_, h2, ?_⟩
    · intro hc; exact absurd hc (by simp)
    · intro hc; exact absurd hc.1 (by simp)
  | refreshOk1 ht =>
    refine ⟨?_, h2, ?_⟩
    · intro hc; exact absurd hc (by simp)
    · intro hc; exact absurd hc.1 (by simp)
  | refreshFail1 ht =>
    refine ⟨?_, h2, ?_⟩
    · intro hc; exact absurd hc (by simp)
    · intro hc; exact absurd hc.1 (by simp)
  | lockAcquire1 ht hmu =>
    refine ⟨fun _ => rfl, fun _ => rfl, ?_⟩
    intro hc
    have h2c := h2 hc.2
    rw [hmu] at h2c
    exact Bool.noConfusion h2c
  | unlock1 ht =>
    refine ⟨?_, ?_, ?_⟩
    · intro hc; exact absurd hc (by simp)
    · intro hc2; exact absurd ⟨ht, hc2⟩ h12
    · intro hc; exact absurd hc.1 (by simp)
  | enterRefresh2 ht =>
    refine ⟨h1, ?_, ?_⟩
    · intro hc; exact absurd hc (by simp)
    · intro hc; exact absurd hc.2 (by simp)
  | refreshOk2 ht =>
    refine ⟨h1, ?_, ?_⟩
    · intro hc; exact absurd hc (by simp)
    · intro hc; exact absurd hc.2 (by simp)
  | refreshFail2 ht =>
    refine ⟨h1, ?_, ?_⟩
    · intro hc; exact absurd hc (by simp)
    · intro hc; exact absurd hc.2 (by simp)
  | lockAcquire2 ht hmu =>
    refine ⟨fun _ => rfl, fun _ => rfl, ?_⟩
    intro hc
    have h1c := h1 hc.1
    rw [hmu] at h1c
    exact Bool.noConfusion h1c
  | unlock2 ht =>
    refine ⟨?_, ?_, ?_⟩
    · intro hc1; exact absurd ⟨hc1, ht⟩ h12
    · intro hc; exact absurd hc (by simp)
    · intro hc; exact absurd hc.2 (by simp)

/-- Every reachable configuration satisfies the lock invariant. -/
lemma reachable_lockInv {s : SysConfig} (h : Reachable s) : LockInv s := by
  induction h with
  | init => exact lockInv_init
  | step _ hs ih => exact lockInv_step ih hs

/-- C1 counterexample: the claim as stated is false — starting from the
initial configuration, thread 1 enters its version refresh and then
thread 2 enters its version refresh while thread 1 is still
mid-execution, so steps of the two `Collect` invocations interleave:
`setCephVersion` is executed at exporter.go line 189, before the
`c.mu.Lock()` of line 195. -/
theorem C1_counterexample_refresh_steps_interleave :
    Reachable { t1 := .refresh, t2 := .refresh, mu := false } ∧
    bothMidExecution { t1 := .refresh, t2 := .refresh, mu := false } := by
  constructor
  · exact Reachable.step
      (Reachable.step Reachable.init (CStep.enterRefresh1 sysInit rfl))
      (CStep.enterRefresh2 { t1 := .refresh, t2 := .idle, mu := false } rfl)
  · exact ⟨⟨by simp, by simp⟩, ⟨by simp, by simp⟩⟩

/-- C1 (amended): the cycle mutex gives mutual exclusion of the locked
sub-collector phase only — in every reachable configuration of two
concurrent `Collect` invocations, at most one thread is inside the
critical section, while the version-refresh steps (taken before the lock)
may interleave. -/
theorem C1_locked_phase_mutual_exclusion :
    ∀ s : SysConfig, Reachable s →
      ¬(s.t1 = TPhase.critical ∧ s.t2 = TPhase.critical) := by
  intro s h
  exact (reachable_lockInv h).2.2

/-- C1 witness: the configuration with thread 1 in the critical section
and thread 2 still refreshing is reachable, and in it the two threads are
not both critical. -/
theorem C1_locked_phase_witness :
    Reachable { t1 := .critical, t2 := .refresh, mu := true } ∧
    ¬(({ t1 := .critical, t2 := .refresh, mu := true } : SysConfig).t1 =
          TPhase.critical ∧
      ({ t1 := .critical, t2 := .refresh, mu := true } : SysConfig).t2 =
          TPhase.critical) := by
  have hr : Reachable { t1 := .critical, t2 := .refresh, mu := true } :=
    Reachable.step
      (Reachable.step
        (Reachable.step
          (Reachable.step Reachable.init (CStep.enterRefresh1 sysInit rfl))
          (CStep.refreshOk1 { t1 := .refresh, t2 := .idle, mu := false } rfl))
        (CStep.lockAcquire1 { t1 := .waitLock, t2 := .idle, mu := false } rfl rfl))
      (CStep.enterRefresh2 { t1 := .critical, t2 := .idle, mu := true } rfl)
  exact ⟨hr, C1_locked_phase_mutual_exclusion _ hr⟩
